/-
Verification of the emrys phased bootstrap engine and its announcement queue.

The definitions below are shallow embeddings of the Go code in
internal/voice/voice.go, internal/bootstrap/phase1.go and
internal/bootstrap/phase2.go.  External effects (the PATH probe, the
darwin-rebuild invocation, the say command, the clock) are passed in as
explicit parameters; strings manipulated by the configuration mutation are
modelled as lists of characters, with Go's strings.Contains,
strings.Replace and strings.Split reimplemented on that representation.
-/
import Mathlib

namespace Emrys

/-! ## Voice module (internal/voice/voice.go) -/

/-- Embeds the Go struct voice.Config (voice.go lines 12-20). -/
structure Config where
  enabled : Bool
  voice : String
  rate : Int
  volume : Float
  quietHours : Bool
  quietStart : Int
  quietEnd : Int

/-- Embeds voice.DefaultConfig (voice.go lines 23-33). -/
def defaultConfig : Config :=
  { enabled := true, voice := "Jamie", rate := 200, volume := 0.7,
    quietHours := false, quietStart := 22, quietEnd := 7 }

/-- Embeds voice.isQuietHours (voice.go lines 193-205); the current hour
read from the clock is the explicit parameter hour. -/
def isQuietHours (start endH hour : Int) : Bool :=
  if start > endH then
    decide (hour ≥ start) || decide (hour < endH)
  else
    decide (hour ≥ start) && decide (hour < endH)

/-- The argument list built for the external say command by voice.speakNow
(voice.go lines 123-141): voice flag when nonempty, rate flag when neither
zero nor the default 200, then the message.  The Volume field is never
consulted. -/
def sayArgs (config : Config) (message : String) : List String :=
  (if config.voice ≠ "" then ["-v", config.voice] else [])
    ++ (if config.rate ≠ 0 ∧ config.rate ≠ 200 then ["-r", toString config.rate] else [])
    ++ [message]

/-- Embeds voice.speakNow (voice.go lines 113-146).  runErr gives the
outcome of running the external command on a given argument list; the
result pairs the returned error with the argument list actually passed to
the external command (none when no command was run). -/
def speakNow (config : Config) (hour : Int) (message : String)
    (runErr : List String → Option String) : Option String × Option (List String) :=
  if config.quietHours && isQuietHours config.quietStart config.quietEnd hour then
    (none, none)
  else
    (runErr (sayArgs config message), some (sayArgs config message))

/-- Embeds voice.SpeakSync (voice.go lines 100-110): returns nil at once
when the speaker is disabled, otherwise defers to speakNow. -/
def speakSync (config : Config) (hour : Int) (message : String)
    (runErr : List String → Option String) : Option String × Option (List String) :=
  if !config.enabled then (none, none)
  else speakNow config hour message runErr

/-- Capacity of the speaker queue, from make(chan string, 100) in
voice.NewSpeaker (voice.go line 50). -/
def queueCapacity : Nat := 100

/-- Embeds one call of voice.Speak (voice.go lines 80-97) against a blocked
consumer: the buffered channel is the list queue; a non-blocking send
succeeds exactly when the buffer holds fewer than queueCapacity messages,
otherwise the message is dropped and the diagnostic flag is true. -/
def speak (enabled : Bool) (queue : List String) (message : String) :
    List String × Bool :=
  if !enabled then (queue, false)
  else if queue.length < queueCapacity then (queue ++ [message], false)
  else (queue, true)

/-- A sequence of voice.Speak calls with the consumer blocked throughout:
returns the final queue contents and the dropped messages in drop order. -/
def speakAll (queue : List String) (messages : List String) :
    List String × List String :=
  match messages with
  | [] => (queue, [])
  | m :: rest =>
    let r := speak true queue m
    let s := speakAll r.1 rest
    (s.1, (if r.2 then [m] else []) ++ s.2)

/-! ## Phase 1 package probes (internal/bootstrap/phase1.go) -/

/-- Embeds bootstrap.Phase1Packages (phase1.go lines 250-255). -/
def Phase1Packages : List String := ["ollama", "tmux", "go", "jq"]

/-- The loop of bootstrap.IsPhase1Complete (phase1.go lines 257-265);
installed is the PATH probe isPackageInstalled. -/
def allInstalled (installed : String → Bool) : List String → Bool
  | [] => true
  | pkg :: rest => if !installed pkg then false else allInstalled installed rest

/-- Embeds bootstrap.IsPhase1Complete (phase1.go lines 257-265). -/
def isPhase1Complete (installed : String → Bool) : Bool :=
  allInstalled installed Phase1Packages

/-- The accumulator loop of bootstrap.GetMissingPackages (phase1.go lines
273-282). -/
def getMissingLoop (installed : String → Bool) :
    List String → List String → List String
  | missing, [] => missing
  | missing, pkg :: rest =>
    if !installed pkg then getMissingLoop installed (missing ++ [pkg]) rest
    else getMissingLoop installed missing rest

/-- Embeds bootstrap.GetMissingPackages (phase1.go lines 273-282). -/
def getMissingPackages (installed : String → Bool) : List String :=
  getMissingLoop installed [] Phase1Packages

/-! ## Phase 2 convergence wait (internal/bootstrap/phase2.go) -/

/-- The attempt bound of the polling loop in bootstrap.StartOllamaService
(phase2.go line 123): for i := 0; i < 30; i++. -/
def ollamaMaxAttempts : Nat := 30

/-- The timeout error returned by bootstrap.StartOllamaService when every
probe attempt fails (phase2.go line 134); 30 seconds is the elapsed
wall-clock time of 30 one-second sleep-then-probe intervals. -/
def ollamaTimeoutMsg : String := "ollama service failed to start within 30 seconds"

/-- The polling loop of bootstrap.StartOllamaService (phase2.go lines
123-131): each iteration sleeps one interval then calls the probe
IsOllamaRunning, whose outcome at attempt i is probe i; returns the number
of probe attempts made and whether the last one succeeded. -/
def awaitFrom (probe : Nat → Bool) : Nat → Nat → Nat × Bool
  | _, 0 => (0, false)
  | i, r + 1 =>
    if probe i then (1, true)
    else
      let p := awaitFrom probe (i + 1) r
      (p.1 + 1, p.2)

/-- The convergence wait of bootstrap.StartOllamaService (phase2.go lines
122-135): up to ollamaMaxAttempts probes, success on the first true
outcome, and the timeout error after the last failure. -/
def startOllamaWait (probe : Nat → Bool) : Nat × Except String Unit :=
  let p := awaitFrom probe 0 ollamaMaxAttempts
  (p.1, if p.2 then Except.ok () else Except.error ollamaTimeoutMsg)

/-! ## Phase 1 run (internal/bootstrap/phase1.go) -/

/-- The externally visible steps of bootstrap.RunPhase1, in the order the
code can perform them. -/
inductive Phase1Step where
  | probe
  | mutate
  | apply
  | verify
deriving DecidableEq

/-- The error text of bootstrap.VerifyPackageInstallation (phase1.go line
412) naming the still-missing packages. -/
def verifyMissingMsg (missing : List String) : String :=
  "some packages are still missing: " ++ String.intercalate ", " missing

/-- Embeds bootstrap.VerifyPackageInstallation (phase1.go lines 407-422);
installed is the PATH probe at verification time. -/
def verifyPackageInstallation (installed : String → Bool) : Except String Unit :=
  if getMissingPackages installed = [] then Except.ok ()
  else Except.error (verifyMissingMsg (getMissingPackages installed))

/-- Embeds bootstrap.RunPhase1 (phase1.go lines 425-478).  installed is
the PATH probe before the run, installedAfter the probe after the external
apply; mutateErr and applyErr are the outcomes of
UpdateNixDarwinConfiguration and nixdarwin.ApplyConfiguration.  Returns
the steps performed, in order, with the run's result. -/
def runPhase1 (installed : String → Bool) (mutateErr applyErr : Option String)
    (installedAfter : String → Bool) : List Phase1Step × Except String Unit :=
  if isPhase1Complete installed then
    ([Phase1Step.probe, Phase1Step.verify],
      match verifyPackageInstallation installed with
      | Except.ok _ => Except.ok ()
      | Except.error e => Except.error e)
  else
    match mutateErr with
    | some e => ([Phase1Step.probe, Phase1Step.mutate],
        Except.error ("failed to update configuration: " ++ e))
    | none =>
      match applyErr with
      | some e => ([Phase1Step.probe, Phase1Step.mutate, Phase1Step.apply],
          Except.error ("failed to apply configuration: " ++ e))
      | none =>
        ([Phase1Step.probe, Phase1Step.mutate, Phase1Step.apply, Phase1Step.verify],
          match verifyPackageInstallation installedAfter with
          | Except.ok _ => Except.ok ()
          | Except.error e => Except.error ("verification failed: " ++ e))

/-! ## String primitives used by the configuration mutation

Go documents are modelled as lists of characters.  The three library
operations used by UpdateNixDarwinConfiguration are reimplemented here:
strings.Contains, strings.Replace with count 1 and count -1 (all uses in
the code have a nonempty search pattern), and strings.Split with a
one-character separator. -/

/-- The characters of a string literal. -/
def strChars (s : String) : List Char := s.data

/-- strings.Contains: some instance of pat occurs in s. -/
def hasSubstr : List Char → List Char → Bool
  | [], pat => pat.isEmpty
  | c :: rest, pat => pat.isPrefixOf (c :: rest) || hasSubstr rest pat

/-- strings.Replace with count 1: replace the leftmost instance of pat
(nonempty in every use below) by repl. -/
def replaceFirst : List Char → List Char → List Char → List Char
  | [], _, _ => []
  | c :: rest, pat, repl =>
    if pat.isPrefixOf (c :: rest) then repl ++ (c :: rest).drop pat.length
    else c :: replaceFirst rest pat repl

/-- Left-to-right scan of strings.Replace with count -1, structurally
recursive on a fuel argument: every step either finishes or consumes at
least one character of the scanned list (pat.length many when pat is
nonempty and matches, one otherwise), so fuel equal to the length of the
scanned list never runs out. -/
def replaceAllGo (pat repl : List Char) : Nat → List Char → List Char
  | _, [] => []
  | 0, s => s
  | fuel + 1, c :: rest =>
    if !pat.isEmpty && pat.isPrefixOf (c :: rest) then
      repl ++ replaceAllGo pat repl fuel ((c :: rest).drop pat.length)
    else
      c :: replaceAllGo pat repl fuel rest

/-- strings.Replace with count -1: replace every non-overlapping instance
of pat (nonempty in every use below), scanning left to right. -/
def replaceAll (s pat repl : List Char) : List Char :=
  replaceAllGo pat repl s.length s

/-- strings.Split with a one-character separator. -/
def splitOnChar (sep : Char) : List Char → List (List Char)
  | [] => [[]]
  | c :: rest =>
    if c = sep then [] :: splitOnChar sep rest
    else
      match splitOnChar sep rest with
      | [] => [[c]]
      | h :: t => (c :: h) :: t

/-! ## Configuration-document mutation (phase1.go lines 285-404) -/

/-- The pattern of the owner declaration looked for at phase1.go line 375. -/
def primaryUserPat : List Char := strChars "system.primaryUser"

/-- The username placeholder substituted at phase1.go line 395. -/
def placeholderPat : List Char := strChars "__EMRYS_USERNAME__"

/-- Marker whose presence suppresses the SSH insertion (phase1.go line 344). -/
def sshMarker : List Char := strChars "services.openssh"

/-- Marker whose presence suppresses the auto-login insertion (phase1.go
line 351). -/
def autoLoginMarker : List Char := strChars "Auto-login configuration"

/-- Marker whose presence suppresses the package-list rewrite (phase1.go
line 358). -/
def phase1Marker : List Char := strChars "# Phase 1 Bootstrap Packages"

/-- The closing-brace anchor before which sections are inserted (phase1.go
lines 346 and 353). -/
def closingBrace : List Char := strChars "\n\x7d"

/-- The sshConfig literal of phase1.go lines 329-332. -/
def sshConfigText : List Char :=
  strChars "\n  # SSH server configuration for remote access\n  # Enable Remote Login in macOS\n  services.openssh.enable = true;"

/-- The autoLoginConfig literal of phase1.go lines 336-341. -/
def autoLoginText : List Char :=
  strChars "\n  # Auto-login configuration for dedicated Mac Mini\n  # Emrys is designed to run on dedicated, physically secure hardware\n  system.defaults.loginwindow = \x7b\n    autoLoginUser = \"__EMRYS_USERNAME__\";\n  \x7d;"

/-- The packagesSection literal of phase1.go lines 306-312. -/
def packagesSectionText : List Char :=
  strChars "  # Basic system packages\n  environment.systemPackages = with pkgs; [\n    vim\n    git\n    curl\n    wget\n  ];"

/-- The updatedPackagesSection literal of phase1.go lines 314-326 (the
line after wget is four spaces). -/
def updatedPackagesSectionText : List Char :=
  strChars "  # Basic system packages\n  environment.systemPackages = with pkgs; [\n    vim\n    git\n    curl\n    wget\n    \n    # Phase 1 Bootstrap Packages\n    ollama\n    tmux\n    go\n    jq\n  ];"

/-- The owner-declaration scan of phase1.go lines 372-383: the first line
containing system.primaryUser and at least one double quote contributes
the text between its first two quotes (possibly empty) and stops the
scan; lines containing the pattern but no quote are skipped. -/
def extractPrimaryUser : List (List Char) → List Char
  | [] => []
  | line :: rest =>
    if hasSubstr line primaryUserPat then
      match splitOnChar '"' line with
      | _ :: p1 :: _ => p1
      | _ => extractPrimaryUser rest
    else extractPrimaryUser rest

/-- The username resolution of phase1.go lines 370-392: the document's
owner declaration, else the USER environment value, else the base name of
the home directory. -/
def resolveUsername (doc user homeBase : List Char) : List Char :=
  let u := extractPrimaryUser (splitOnChar '\n' doc)
  if u = [] then (if user = [] then homeBase else user) else u

/-- Embeds the document transformation of
bootstrap.UpdateNixDarwinConfiguration (phase1.go lines 285-404): doc is
the file contents read at line 294, user the USER environment value,
homeBase the base name of the home directory.  Returns the document
written back and the configChanged flag; when the flag is false the code
returns before any write (phase1.go lines 365-368). -/
def updateNixDarwinConfiguration (doc user homeBase : List Char) :
    List Char × Bool :=
  let c1 := if hasSubstr doc sshMarker then doc
    else replaceFirst doc closingBrace (sshConfigText ++ closingBrace)
  let c2 := if hasSubstr c1 autoLoginMarker then c1
    else replaceFirst c1 closingBrace (autoLoginText ++ closingBrace)
  let c3 := if hasSubstr c2 phase1Marker then c2
    else replaceFirst c2 packagesSectionText updatedPackagesSectionText
  let changed := !hasSubstr doc sshMarker || !hasSubstr c1 autoLoginMarker
    || !hasSubstr c2 phase1Marker
  if changed then
    (replaceAll c3 placeholderPat (resolveUsername c3 user homeBase), true)
  else (doc, false)

/-- A document on which the mutation is not idempotent: it has no
closing-brace anchor, so the first run inserts nothing, yet its owner
declaration names the single character brace, so substituting the
placeholder creates a closing-brace anchor that the second run then
expands. -/
def c1CounterDoc : List Char :=
  strChars "system.primaryUser = \"\x7d\"\n__EMRYS_USERNAME__"

/-- A stock-shaped document: the exact packages block followed by a
closing brace, so the first run inserts every section. -/
def stockNixDoc : List Char := packagesSectionText ++ closingBrace

/-- A document carrying an owner declaration naming alice. -/
def aliceOwnerDoc : List Char :=
  strChars "\x7b\n  system.primaryUser = \"alice\";\n\x7d"

/-! ## Helper lemmas -/

theorem awaitFrom_all_false (probe : Nat → Bool) :
    ∀ (r i : Nat), (∀ j, j < r → probe (i + j) = false) →
      awaitFrom probe i r = (r, false) := by
  intro r
  induction r with
  | zero => intro i _; rfl
  | succ n ih =>
    intro i h
    have h0 : probe i = false := by
      have := h 0 (Nat.succ_pos n)
      simpa using this
    have hrec := ih (i + 1) (fun j hj => by
      have := h (j + 1) (Nat.succ_lt_succ hj)
      simpa [Nat.add_assoc, Nat.add_comm 1 j] using this)
    simp [awaitFrom, h0, hrec]

theorem awaitFrom_first_true (probe : Nat → Bool) :
    ∀ (r k i : Nat), k < r → probe (i + k) = true →
      (∀ j, j < k → probe (i + j) = false) →
      awaitFrom probe i r = (k + 1, true) := by
  intro r
  induction r with
  | zero => intro k i hk; omega
  | succ n ih =>
    intro k i hk hkt hprev
    cases k with
    | zero =>
      have h0 : probe i = true := by simpa using hkt
      simp [awaitFrom, h0]
    | succ m =>
      have h0 : probe i = false := by
        have := hprev 0 (Nat.succ_pos m)
        simpa using this
      have hrec := ih m (i + 1) (Nat.lt_of_succ_lt_succ hk)
        (by
          have : i + 1 + m = i + (m + 1) := by omega
          rw [this]; exact hkt)
        (fun j hj => by
          have := hprev (j + 1) (Nat.succ_lt_succ hj)
          have heq : i + 1 + j = i + (j + 1) := by omega
          rw [heq]; exact this)
      simp [awaitFrom, h0, hrec]

theorem getMissingLoop_eq (installed : String → Bool) :
    ∀ (l missing : List String),
      getMissingLoop installed missing l = missing ++ l.filter (fun p => !installed p) := by
  intro l
  induction l with
  | nil => intro missing; simp [getMissingLoop]
  | cons pkg rest ih =>
    intro missing
    by_cases h : installed pkg
    · simp [getMissingLoop, h, ih, List.filter]
    · simp [getMissingLoop, h, ih, List.filter]

theorem getMissing_eq_filter (installed : String → Bool) :
    getMissingPackages installed = Phase1Packages.filter (fun p => !installed p) := by
  simp [getMissingPackages, getMissingLoop_eq]

theorem allInstalled_eq_all (installed : String → Bool) :
    ∀ l : List String, allInstalled installed l = l.all installed := by
  intro l
  induction l with
  | nil => rfl
  | cons pkg rest ih =>
    by_cases h : installed pkg <;> simp [allInstalled, h, ih]

theorem speakAll_spec : ∀ (messages queue : List String),
    queue.length ≤ queueCapacity →
    speakAll queue messages =
      (queue ++ messages.take (queueCapacity - queue.length),
       messages.drop (queueCapacity - queue.length)) := by
  intro messages
  induction messages with
  | nil => intro queue _; simp [speakAll]
  | cons m rest ih =>
    intro queue hq
    by_cases h : queue.length < queueCapacity
    · have hstep : speak true queue m = (queue ++ [m], false) := by
        simp [speak, h]
      have hlen : (queue ++ [m]).length ≤ queueCapacity := by
        simp; omega
      have hrec := ih (queue ++ [m]) hlen
      simp only [speakAll, hstep, hrec]
      have h1 : queueCapacity - queue.length = (queueCapacity - (queue ++ [m]).length) + 1 := by
        simp; omega
      simp [h1, List.take_succ_cons, List.drop_succ_cons]
    · have hfull : queue.length = queueCapacity := by omega
      have hstep : speak true queue m = (queue, true) := by
        simp [speak, h]
      have hrec := ih queue hq
      simp only [speakAll, hstep, hrec]
      simp [hfull]

/-! ## Claim theorems: voice and probes -/

/-- C3: the quiet-window predicate agrees with membership in the half-open
interval [start, end) taken modulo 24: start > end wraps past midnight,
start < end is the plain half-open interval, and start = end is the empty
window, so the predicate is false at every hour; the spec's concrete
examples are included. -/
theorem isQuietHours_window :
    (∀ start endH hour : Int, 0 ≤ start → start < 24 → 0 ≤ endH → endH < 24 →
      0 ≤ hour → hour < 24 →
      (isQuietHours start endH hour = true ↔
        (hour - start) % 24 < (endH - start) % 24))
    ∧ isQuietHours 22 7 23 = true ∧ isQuietHours 22 7 3 = true
    ∧ isQuietHours 22 7 10 = false
    ∧ isQuietHours 1 5 2 = true ∧ isQuietHours 1 5 6 = false
    ∧ (∀ hour : Int, isQuietHours 0 0 hour = false)
    ∧ (∀ hour : Int, isQuietHours 12 12 hour = false) := by
  refine ⟨?_, by decide, by decide, by decide, by decide, by decide, ?_, ?_⟩
  · intro start endH hour hs0 hs1 he0 he1 hh0 hh1
    unfold isQuietHours
    split
    · simp only [Bool.or_eq_true, decide_eq_true_eq]
      omega
    · simp only [Bool.and_eq_true, decide_eq_true_eq]
      omega
  · intro hour
    unfold isQuietHours
    simp only [if_neg (lt_irrefl (0 : Int))]
    simp
  · intro hour
    unfold isQuietHours
    simp only [if_neg (lt_irrefl (12 : Int))]
    simp

/-- C3 witness: the general window equivalence instantiated at the
wraparound example isQuiet(22,7) at hour 23. -/
theorem isQuietHours_window_witness :
    isQuietHours 22 7 23 = true ∧ ((23 : Int) - 22) % 24 < ((7 : Int) - 22) % 24 :=
  ⟨(isQuietHours_window.1 22 7 23 (by decide) (by decide) (by decide) (by decide)
      (by decide) (by decide)).mpr (by decide), by decide⟩

/-- C5: GetMissingPackages returns exactly the packages whose probe is
false, in declaration order (a sublist of Phase1Packages, independent of
any probe evaluation order), and on the probe outcome
ollama=false, tmux=true, go=true, jq=false it returns ["ollama", "jq"]. -/
theorem getMissingPackages_spec :
    (∀ installed : String → Bool,
      getMissingPackages installed = Phase1Packages.filter (fun p => !installed p))
    ∧ (∀ installed : String → Bool,
      (getMissingPackages installed).Sublist Phase1Packages)
    ∧ (∀ (installed : String → Bool) (p : String),
      p ∈ getMissingPackages installed ↔ p ∈ Phase1Packages ∧ installed p = false)
    ∧ getMissingPackages (fun p => p == "tmux" || p == "go") = ["ollama", "jq"] := by
  refine ⟨getMissing_eq_filter, ?_, ?_, by decide⟩
  · intro installed
    rw [getMissing_eq_filter]
    exact List.filter_sublist _
  · intro installed p
    rw [getMissing_eq_filter, List.mem_filter]
    simp

/-- C8: the aggregate completeness probe and the missing-requirement list
agree: IsPhase1Complete is true exactly when GetMissingPackages is empty. -/
theorem isPhase1Complete_iff_noMissing (installed : String → Bool) :
    isPhase1Complete installed = true ↔ getMissingPackages installed = [] := by
  rw [isPhase1Complete, allInstalled_eq_all, getMissing_eq_filter,
    List.all_eq_true, List.filter_eq_nil_iff]
  simp

/-- C2: with the consumer blocked, enqueuing 101 messages into the empty
100-capacity queue leaves the first 100 messages in the queue in enqueue
order and drops exactly the 101st. -/
theorem speak_overflow_drops (messages : List String)
    (h : messages.length = 101) :
    speakAll [] messages = (messages.take 100, messages.drop 100)
    ∧ (speakAll [] messages).2.length = 1 := by
  have hs := speakAll_spec messages [] (by simp)
  simp only [queueCapacity] at hs
  simp only [List.length_nil, Nat.sub_zero, List.nil_append] at hs
  refine ⟨hs, ?_⟩
  rw [hs]
  simp [h]

/-- C2 witness: the overflow theorem applied to a concrete list of 101
messages. -/
theorem speak_overflow_drops_witness :
    speakAll [] (List.replicate 101 "x") =
      ((List.replicate 101 "x").take 100, (List.replicate 101 "x").drop 100) :=
  (speak_overflow_drops (List.replicate 101 "x") (by simp)).1

/-- C9: SpeakSync returns a nil error and never invokes the external
announcement command when the speaker is disabled, or when quiet hours are
enabled and the current hour falls inside the quiet window. -/
theorem speakSync_suppressed (config : Config) (hour : Int) (message : String)
    (runErr : List String → Option String)
    (h : config.enabled = false ∨
      (config.quietHours = true ∧
        isQuietHours config.quietStart config.quietEnd hour = true)) :
    speakSync config hour message runErr = (none, none) := by
  rcases h with h | ⟨hq, hw⟩
  · simp [speakSync, h]
  · by_cases he : config.enabled
    · simp [speakSync, he, speakNow, hq, hw]
    · simp [speakSync, he]

/-- C9 witness: a disabled speaker returns a nil error with no external
invocation. -/
theorem speakSync_suppressed_witness :
    speakSync { enabled := false, voice := "Jamie", rate := 200, volume := 0.7,
                quietHours := false, quietStart := 22, quietEnd := 7 }
      12 "hello" (fun _ => none) = (none, none) :=
  speakSync_suppressed _ 12 "hello" (fun _ => none) (Or.inl rfl)

/-- C10: the Volume field does not influence the announcement: two
configurations equal in every field except Volume yield the same speakNow
outcome and the same argument list for the external say command. -/
theorem speakNow_volume_noninterference (c₁ c₂ : Config) (hour : Int)
    (message : String) (runErr : List String → Option String)
    (he : c₁.enabled = c₂.enabled) (hv : c₁.voice = c₂.voice)
    (hr : c₁.rate = c₂.rate) (hq : c₁.quietHours = c₂.quietHours)
    (hs : c₁.quietStart = c₂.quietStart) (hEnd : c₁.quietEnd = c₂.quietEnd) :
    speakNow c₁ hour message runErr = speakNow c₂ hour message runErr
    ∧ sayArgs c₁ message = sayArgs c₂ message := by
  cases c₁
  cases c₂
  simp only at he hv hr hq hs hEnd
  subst he hv hr hq hs hEnd
  exact ⟨rfl, rfl⟩

/-- C10 witness: two configurations differing only in Volume (0.1 versus
0.9) produce identical speakNow outcomes. -/
theorem speakNow_volume_noninterference_witness :
    speakNow { enabled := true, voice := "Jamie", rate := 100, volume := 0.1,
               quietHours := false, quietStart := 22, quietEnd := 7 }
      12 "hello" (fun _ => none)
    = speakNow { enabled := true, voice := "Jamie", rate := 100, volume := 0.9,
                 quietHours := false, quietStart := 22, quietEnd := 7 }
      12 "hello" (fun _ => none) :=
  (speakNow_volume_noninterference _ _ 12 "hello" (fun _ => none)
    rfl rfl rfl rfl rfl rfl).1

/-- C4: the convergence wait makes at most 30 probe attempts: if the first
success is at attempt index k it stops successfully after exactly k + 1
attempts, and if all 30 attempts fail it returns the timeout error naming
the 30-second elapsed duration after exactly 30 attempts. -/
theorem startOllamaWait_spec (probe : Nat → Bool) :
    ((∀ i, i < 30 → probe i = false) →
      startOllamaWait probe = (30, Except.error ollamaTimeoutMsg))
    ∧ (∀ k, k < 30 → probe k = true → (∀ j, j < k → probe j = false) →
      startOllamaWait probe = (k + 1, Except.ok ())) := by
  constructor
  · intro h
    have := awaitFrom_all_false probe 30 0 (fun j hj => by simpa using h j hj)
    simp [startOllamaWait, ollamaMaxAttempts, this]
  · intro k hk hkt hprev
    have := awaitFrom_first_true probe 30 k 0 hk (by simpa using hkt)
      (fun j hj => by simpa using hprev j hj)
    simp [startOllamaWait, ollamaMaxAttempts, this]

/-- C4 witness: an always-failing probe times out after exactly 30
attempts, and a probe first succeeding at attempt index 5 stops after
exactly 6 attempts. -/
theorem startOllamaWait_spec_witness :
    startOllamaWait (fun _ => false) = (30, Except.error ollamaTimeoutMsg)
    ∧ startOllamaWait (fun i => decide (i = 5)) = (6, Except.ok ()) :=
  ⟨(startOllamaWait_spec (fun _ => false)).1 (fun _ _ => rfl),
   (startOllamaWait_spec (fun i => decide (i = 5))).2 5 (by decide) (by decide)
     (by decide)⟩

/-- C7: RunPhase1 performs its steps in the strict order probe, mutate,
apply, verify (its step trace is always a sublist of that sequence); when
the probe reports everything satisfied it stops successfully without
mutating or applying; a mutation error aborts before the external apply
step; an apply error aborts before verification; and a verification
failure reports exactly the packages the after-apply probe still finds
missing. -/
theorem runPhase1_ordering (installed : String → Bool)
    (mutateErr applyErr : Option String) (installedAfter : String → Bool) :
    ((runPhase1 installed mutateErr applyErr installedAfter).1.Sublist
      [Phase1Step.probe, Phase1Step.mutate, Phase1Step.apply, Phase1Step.verify])
    ∧ (isPhase1Complete installed = true →
      (runPhase1 installed mutateErr applyErr installedAfter).2 = Except.ok ()
      ∧ Phase1Step.mutate ∉ (runPhase1 installed mutateErr applyErr installedAfter).1
      ∧ Phase1Step.apply ∉ (runPhase1 installed mutateErr applyErr installedAfter).1)
    ∧ (isPhase1Complete installed = false → ∀ e, mutateErr = some e →
      runPhase1 installed mutateErr applyErr installedAfter =
        ([Phase1Step.probe, Phase1Step.mutate],
          Except.error ("failed to update configuration: " ++ e)))
    ∧ (isPhase1Complete installed = false → mutateErr = none → ∀ e, applyErr = some e →
      runPhase1 installed mutateErr applyErr installedAfter =
        ([Phase1Step.probe, Phase1Step.mutate, Phase1Step.apply],
          Except.error ("failed to apply configuration: " ++ e)))
    ∧ (isPhase1Complete installed = false → mutateErr = none → applyErr = none →
      getMissingPackages installedAfter ≠ [] →
      (runPhase1 installed mutateErr applyErr installedAfter).2 =
        Except.error ("verification failed: "
          ++ verifyMissingMsg (getMissingPackages installedAfter))) := by
  refine ⟨?_, ?_, ?_, ?_, ?_⟩
  · unfold runPhase1
    split
    · show ([Phase1Step.probe, Phase1Step.verify]).Sublist
        [Phase1Step.probe, Phase1Step.mutate, Phase1Step.apply, Phase1Step.verify]
      decide
    · cases mutateErr with
      | some e =>
        show ([Phase1Step.probe, Phase1Step.mutate]).Sublist
          [Phase1Step.probe, Phase1Step.mutate, Phase1Step.apply, Phase1Step.verify]
        decide
      | none =>
        cases applyErr with
        | some e =>
          show ([Phase1Step.probe, Phase1Step.mutate, Phase1Step.apply]).Sublist
            [Phase1Step.probe, Phase1Step.mutate, Phase1Step.apply, Phase1Step.verify]
          decide
        | none =>
          show ([Phase1Step.probe, Phase1Step.mutate, Phase1Step.apply,
              Phase1Step.verify]).Sublist
            [Phase1Step.probe, Phase1Step.mutate, Phase1Step.apply, Phase1Step.verify]
          exact List.Sublist.refl _
  · intro hc
    have hmiss : getMissingPackages installed = [] :=
      (isPhase1Complete_iff_noMissing installed).mp hc
    simp [runPhase1, hc, verifyPackageInstallation, hmiss]
  · intro hc e he
    subst he
    simp [runPhase1, hc]
  · intro hc hm e ha
    subst hm ha
    simp [runPhase1, hc]
  · intro hc hm ha hmiss
    subst hm ha
    simp [runPhase1, hc, verifyPackageInstallation, hmiss]

/-- C7 witness: with no package installed and a failing mutation the run
aborts after probe and mutate with the wrapped mutation error, never
reaching the apply step. -/
theorem runPhase1_ordering_witness :
    runPhase1 (fun _ => false) (some "disk full") none (fun _ => true) =
      ([Phase1Step.probe, Phase1Step.mutate],
        Except.error ("failed to update configuration: " ++ "disk full")) :=
  (runPhase1_ordering (fun _ => false) (some "disk full") none
    (fun _ => true)).2.2.1 rfl "disk full" rfl

theorem updateNixDarwin_fixedPoint_of_markers (doc user homeBase : List Char)
    (h1 : hasSubstr doc sshMarker = true)
    (h2 : hasSubstr doc autoLoginMarker = true)
    (h3 : hasSubstr doc phase1Marker = true) :
    updateNixDarwinConfiguration doc user homeBase = (doc, false) := by
  simp [updateNixDarwinConfiguration, h1, h2, h3]

set_option maxRecDepth 40000 in
/-- C1 counterexample: the mutation applied twice to c1CounterDoc is not
idempotent — the second run reports a change (so it writes) and produces a
document that is not byte-identical to the first run's output. -/
theorem updateNixDarwin_not_idempotent :
    ((updateNixDarwinConfiguration
        (updateNixDarwinConfiguration c1CounterDoc (strChars "u") (strChars "h")).1
        (strChars "u") (strChars "h")).2 = true)
    ∧ ((updateNixDarwinConfiguration
        (updateNixDarwinConfiguration c1CounterDoc (strChars "u") (strChars "h")).1
        (strChars "u") (strChars "h")).1
      ≠ (updateNixDarwinConfiguration c1CounterDoc (strChars "u") (strChars "h")).1) := by
  decide

/-- C1 (amended): whenever the first run leaves a document containing all
three section markers, the second run detects every marker as already
present, reports no change (the path on which the code performs no write),
and returns the document byte-identical. -/
theorem updateNixDarwin_second_run_noop (doc user homeBase : List Char)
    (h1 : hasSubstr (updateNixDarwinConfiguration doc user homeBase).1 sshMarker = true)
    (h2 : hasSubstr (updateNixDarwinConfiguration doc user homeBase).1 autoLoginMarker = true)
    (h3 : hasSubstr (updateNixDarwinConfiguration doc user homeBase).1 phase1Marker = true) :
    updateNixDarwinConfiguration (updateNixDarwinConfiguration doc user homeBase).1
      user homeBase
    = ((updateNixDarwinConfiguration doc user homeBase).1, false) :=
  updateNixDarwin_fixedPoint_of_markers _ user homeBase h1 h2 h3

set_option maxRecDepth 40000 in
/-- C1 witness: on the stock-shaped document the first run inserts every
section, and the second run is a reported-unchanged no-op. -/
theorem updateNixDarwin_second_run_noop_witness :
    updateNixDarwinConfiguration
      (updateNixDarwinConfiguration stockNixDoc (strChars "u") (strChars "h")).1
      (strChars "u") (strChars "h")
    = ((updateNixDarwinConfiguration stockNixDoc (strChars "u") (strChars "h")).1,
        false) :=
  updateNixDarwin_second_run_noop stockNixDoc (strChars "u") (strChars "h")
    (by decide) (by decide) (by decide)

set_option maxRecDepth 40000 in
/-- C6: the placeholder resolution precedence of phase1.go lines 370-395 —
the document's own owner declaration (the first system.primaryUser line
carrying a quote) wins over the USER environment value, the environment
value is used only when the document yields no name, and the home-directory
base name only when the environment value is also empty; and end to end,
mutating a document that declares alice substitutes alice into the
auto-login block even though the environment says bob. -/
theorem placeholderResolutionOrder (doc user homeBase : List Char) :
    (extractPrimaryUser (splitOnChar '\n' doc) ≠ [] →
      resolveUsername doc user homeBase = extractPrimaryUser (splitOnChar '\n' doc))
    ∧ (extractPrimaryUser (splitOnChar '\n' doc) = [] → user ≠ [] →
      resolveUsername doc user homeBase = user)
    ∧ (extractPrimaryUser (splitOnChar '\n' doc) = [] → user = [] →
      resolveUsername doc user homeBase = homeBase)
    ∧ hasSubstr (updateNixDarwinConfiguration aliceOwnerDoc (strChars "bob")
        (strChars "bobhome")).1 (strChars "autoLoginUser = \"alice\"") = true := by
  refine ⟨?_, ?_, ?_, by decide⟩
  · intro h
    simp [resolveUsername, h]
  · intro h hu
    simp [resolveUsername, h, hu]
  · intro h hu
    simp [resolveUsername, h, hu]

/-- C6 witness: on the document declaring alice, resolution returns the
extracted declaration, which is alice, not the environment's bob. -/
theorem placeholderResolutionOrder_witness :
    resolveUsername aliceOwnerDoc (strChars "bob") (strChars "bh")
      = extractPrimaryUser (splitOnChar '\n' aliceOwnerDoc)
    ∧ extractPrimaryUser (splitOnChar '\n' aliceOwnerDoc) = strChars "alice" :=
  ⟨(placeholderResolutionOrder aliceOwnerDoc (strChars "bob") (strChars "bh")).1
      (by decide),
   by decide⟩

end Emrys
